import Mathlib

/-!
# Verification of the MijiaTemp polling/retry state machine

Shallow embedding of `src/modules/mijia-temp/mijia-temp.ts`: a service that
periodically spawns a `gatttool` subprocess, parses its line-oriented output
into a temperature/humidity reading, publishes the reading to a record, and
retries failed poll cycles with a fixed delay, bounded by `MAX_RETRY`.

JavaScript strings are modelled as `List Char`; JavaScript numbers produced by
the parser are modelled as `Option Rat`, with `none` standing for `NaN`
(the only non-rational value the parsing code can produce).  The event-driven
runtime (interval timer, one-shot retry timers, subprocess line/exit/error
events) is modelled as a step function over an explicit machine state, driven
by a list of events.
-/

namespace MijiaTemp

/-- `RETRY_TIMEOUT = 5000` (retry update after 5 seconds). -/
def RETRY_TIMEOUT : Nat := 5000

/-- `MAX_RETRY = 10`. -/
def MAX_RETRY : Nat := 10

/-! ## JavaScript string and number primitives used by the line handler -/

/-- Value of a hexadecimal digit character, `none` if not a hex digit
(digits `0-9`, `a-f`, `A-F`, as accepted by JavaScript `Number` on an
`0x`-prefixed string). -/
def hexDigit? (c : Char) : Option Nat :=
  if 48 ≤ c.toNat ∧ c.toNat ≤ 57 then some (c.toNat - 48)
  else if 97 ≤ c.toNat ∧ c.toNat ≤ 102 then some (c.toNat - 87)
  else if 65 ≤ c.toNat ∧ c.toNat ≤ 70 then some (c.toNat - 55)
  else none

/-- Accumulating hexadecimal evaluation; fails on the first non-hex char. -/
def hexNatAux : Nat → List Char → Option Nat
  | acc, [] => some acc
  | acc, c :: cs =>
    match hexDigit? c with
    | some d => hexNatAux (acc * 16 + d) cs
    | none => none

/-- JavaScript `Number("0x" ++ tail)`: `some v` if `tail` is a nonempty string
of hex digits with value `v`, otherwise `none` (= `NaN`). -/
def hexTail? (cs : List Char) : Option Nat :=
  match cs with
  | [] => none
  | _ :: _ => hexNatAux 0 cs

/-- Does `pat` occur at the head of `s`? -/
def headMatch : List Char → List Char → Bool
  | _, [] => true
  | [], _ :: _ => false
  | c :: cs, p :: ps => c == p && headMatch cs ps

/-- First index at or after `i` where `pat` occurs in `s`. -/
def indexOfAux (pat : List Char) : List Char → Nat → Option Nat
  | [], i => if headMatch [] pat then some i else none
  | s@(_ :: rest), i => if headMatch s pat then some i else indexOfAux pat rest (i + 1)

/-- JavaScript `s.indexOf(pat)`: index of the first occurrence, or `-1`. -/
def jsIndexOf (s pat : List Char) : Int :=
  match indexOfAux pat s 0 with
  | some n => (n : Int)
  | none => -1

/-- JavaScript whitespace characters relevant to `trim`. -/
def isWS (c : Char) : Bool := c == ' ' || c == '\t' || c == '\n' || c == '\r'

/-- JavaScript `s.trim()`. -/
def trimCh (cs : List Char) : List Char :=
  ((cs.dropWhile isWS).reverse.dropWhile isWS).reverse

/-- JavaScript `s.split(' ')`: split on every single space character;
consecutive spaces produce empty tokens, the empty string yields `[""]`. -/
def splitSp : List Char → List (List Char)
  | [] => [[]]
  | c :: cs =>
    if c == ' ' then [] :: splitSp cs
    else
      match splitSp cs with
      | t :: ts => (c :: t) :: ts
      | [] => [[c]]

/-- The literal marker `value:` searched for in each output line. -/
def valueMarker : List Char := ['v', 'a', 'l', 'u', 'e', ':']

/-- `line.substring(line.indexOf('value:') + 6).trim().split(' ')`:
JavaScript `substring` clamps a negative start index to `0`. -/
def tokensOf (line : List Char) : List (List Char) :=
  splitSp (trimCh (line.drop (jsIndexOf line valueMarker + 6).toNat))

/-- JavaScript stringification of `undefined`, produced by the template
literal when a token index is out of range. -/
def undefinedStr : List Char := ['u', 'n', 'd', 'e', 'f', 'i', 'n', 'e', 'd']

/-- `values[i]` as it appears inside the template literal: the token, or the
string `undefined` when the index is out of range. -/
def getTok (ts : List (List Char)) (i : Nat) : List Char :=
  ts.getD i undefinedStr

/-- The temperature computed by the line handler:
``+`0x${values[1]}${values[0]}` / 100`` — `none` models `NaN`. -/
def lineTemp (line : List Char) : Option Rat :=
  (hexTail? (getTok (tokensOf line) 1 ++ getTok (tokensOf line) 0)).map
    fun n => (n : Rat) / 100

/-- The humidity computed by the line handler: ``+`0x${values[2]}` `` —
`none` models `NaN`. -/
def lineHumid (line : List Char) : Option Rat :=
  (hexTail? (getTok (tokensOf line) 2)).map fun n => (n : Rat)

/-- A token that is a byte as printed by gatttool: exactly two hexadecimal
digits; returns its value. -/
def hexByte? : List Char → Option Nat
  | [a, b] =>
    match hexDigit? a, hexDigit? b with
    | some x, some y => some (x * 16 + y)
    | _, _ => none
  | _ => none

/-! ## Machine state -/

/-- The five health states reported via `setState`. -/
inductive Health
  | OK
  | BUSY
  | PROBLEM
  | ERROR
  | INACTIVE
deriving DecidableEq

/-- The object written to the record by `record.set`:
`{ temperature, humidity, time }`.  `none` in a numeric field models `NaN`;
`time` is the abstract capture instant (`new Date().toISOString()`). -/
structure Reading where
  temperature : Option Rat
  humidity : Option Rat
  time : Nat
deriving DecidableEq

/-- Per-subprocess observable state.  `lineCounter` is the per-cycle counter
declared inside `update`; `sigints` counts `kill('SIGINT')` requests sent to
this process; `inputClosed` records `input.close()`. -/
structure ProcState where
  lineCounter : Nat
  exited : Bool
  errored : Bool
  inputClosed : Bool
  sigints : Nat
deriving DecidableEq

/-- Fresh subprocess state right after `spawn`. -/
def newProc : ProcState :=
  { lineCounter := 0, exited := false, errored := false, inputClosed := false,
    sigints := 0 }

/-- The session state of the `MijiaTemp` service.  Subprocesses are
identified by their spawn order: process `pid` is `procs[pid]`.
`gattProcess` is the single mutable `this.gattProcess` slot (`none` =
`undefined`).  `pendingRetries` holds the delays of scheduled, not yet fired
`setTimeout` retry timers.  `published` is the sequence of `record.set`
calls.  `clock` is an abstract event clock used for capture instants. -/
structure MState where
  retryCounter : Nat
  gattProcess : Option Nat
  procs : List ProcState
  health : Health
  healthMsg : String
  timerActive : Bool
  recordAttached : Bool
  published : List Reading
  pendingRetries : List Nat
  clock : Nat
deriving DecidableEq

/-- `this.setState(state, message)`. -/
def setState (s : MState) (h : Health) (msg : String) : MState :=
  { s with health := h, healthMsg := msg }

/-- `this.gattProcess = spawn(...)`: append a fresh process and store its
handle in the slot. -/
def spawnProc (s : MState) : MState :=
  { s with procs := s.procs ++ [newProc], gattProcess := some s.procs.length }

/-- Replace the state of process `pid`. -/
def setProc (s : MState) (pid : Nat) (p : ProcState) : MState :=
  { s with procs := s.procs.set pid p }

/-- The synchronous part of `closeChildProcess()`: if a process handle is in
the slot, send it `SIGINT` (the registered once-exit continuation merely
clears the slot and resolves, which the exit event already does); if the slot
is empty, resolve immediately with no effect. -/
def closeChildProcess (s : MState) : MState :=
  match s.gattProcess with
  | some pid =>
    match s.procs[pid]? with
    | some p => setProc s pid { p with sigints := p.sigints + 1 }
    | none => s
  | none => s

/-- `update()`: one poll cycle, translated branch by branch. -/
def update (s : MState) : MState :=
  if s.retryCounter = 0 then
    spawnProc (setState s Health.BUSY "updating values ...")
  else if MAX_RETRY ≤ s.retryCounter then
    { setState s Health.PROBLEM "unable to connect to device" with
        retryCounter := 0 }
  else
    spawnProc (setState s Health.BUSY
      ("updating values (retry " ++ toString s.retryCounter ++ ") ..."))

/-- The `error` observer attached in `update`: `input.close()`,
`this.gattProcess = undefined`, health `ERROR`. -/
def errorHandler (s : MState) (pid : Nat) : MState :=
  match s.procs[pid]? with
  | some p =>
    let s1 := setProc s pid { p with errored := true, inputClosed := true }
    setState { s1 with gattProcess := none } Health.ERROR
      "unable to launch gatttool process"
  | none => s

/-- The `exit` observer attached in `update`: `input.close()`,
`this.gattProcess = undefined`; then exit code `0` or `130` resets the retry
counter and reports `OK`, any other code increments the counter and schedules
a one-shot retry after `RETRY_TIMEOUT`.  The exit code is `Option Int`
(`none` = Node's `null` for a signal-killed child, which compares unequal
to `0` and `130`). -/
def exitHandler (s : MState) (pid : Nat) (code : Option Int) : MState :=
  match s.procs[pid]? with
  | some p =>
    let s1 := setProc s pid { p with exited := true, inputClosed := true }
    let s2 := { s1 with gattProcess := none }
    if code = some 0 ∨ code = some 130 then
      setState { s2 with retryCounter := 0 } Health.OK ""
    else
      { s2 with retryCounter := s2.retryCounter + 1,
                pendingRetries := s2.pendingRetries ++ [RETRY_TIMEOUT] }
  | none => s

/-- The `line` observer attached in `update`: the first line of the cycle is
discarded; every later line is parsed, published via `record.set`, and
followed by `closeChildProcess()`. -/
def lineHandler (s : MState) (pid : Nat) (line : List Char) : MState :=
  match s.procs[pid]? with
  | some p =>
    if p.lineCounter = 0 then
      setProc s pid { p with lineCounter := p.lineCounter + 1 }
    else
      closeChildProcess
        { s with published := s.published ++
            [{ temperature := lineTemp line, humidity := lineHumid line,
               time := s.clock }] }
  | none => s

/-- `stop()`, exactly as written: `clearInterval`, a call to
`closeChildProcess()` whose promise is **not awaited** (so only its
synchronous part runs before `stop` continues), `record.discard()`, and
`setState(INACTIVE)`. -/
def stop (s : MState) : MState :=
  let s1 := { s with timerActive := false }
  let s2 := closeChildProcess s1
  let s3 := { s2 with recordAttached := false }
  setState s3 Health.INACTIVE ""

/-! ## Event-driven execution -/

/-- External events dispatched to the single-threaded runtime. -/
inductive Ev
  | tick
  | retryFire
  | stopCall
  | line (pid : Nat) (str : List Char)
  | exitEv (pid : Nat) (code : Option Int)
  | errorEv (pid : Nat)

/-- A `line` event is delivered only for a process whose readline interface
is still open and which has neither exited nor failed to spawn. -/
def procLiveForLines (s : MState) (pid : Nat) : Bool :=
  match s.procs[pid]? with
  | some p => !p.exited && !p.errored && !p.inputClosed
  | none => false

/-- One dispatch of the event loop.  The interval `tick` runs `update` only
while the recurring timer is active; `retryFire` consumes one pending
`setTimeout` retry (pending retries are *not* gated on the timer or on
`stop`); `exit`/`error` fire at most once per process. -/
def step (s0 : MState) (e : Ev) : MState :=
  let s := { s0 with clock := s0.clock + 1 }
  match e with
  | Ev.tick => if s.timerActive then update s else s
  | Ev.retryFire =>
    match s.pendingRetries with
    | [] => s
    | _ :: rest => update { s with pendingRetries := rest }
  | Ev.stopCall => stop s
  | Ev.line pid str => if procLiveForLines s pid then lineHandler s pid str else s
  | Ev.exitEv pid code =>
    match s.procs[pid]? with
    | some p => if !p.exited && !p.errored then exitHandler s pid code else s
    | none => s
  | Ev.errorEv pid =>
    match s.procs[pid]? with
    | some p => if !p.exited && !p.errored then errorHandler s pid else s
    | none => s

/-- Run a list of events. -/
def run (s : MState) (es : List Ev) : MState :=
  es.foldl step s

/-- Session state at the end of `start(config)`, just before the immediate
first `update()`: record acquired, recurring timer scheduled, health `OK`. -/
def startState : MState :=
  { retryCounter := 0, gattProcess := none, procs := [], health := Health.OK,
    healthMsg := "", timerActive := true, recordAttached := true,
    published := [], pendingRetries := [], clock := 0 }

/-- State after `start(config)` returns (it ends with `this.update()`). -/
def start : MState := update startState

/-- Number of spawned subprocesses that are still live (neither exited nor
failed to spawn). -/
def liveProcs (s : MState) : Nat :=
  (s.procs.filter fun p => !p.exited && !p.errored).length

/-! ## Helper lemmas -/

theorem closeChildProcess_fields (s : MState) :
    (closeChildProcess s).published = s.published ∧
    (closeChildProcess s).retryCounter = s.retryCounter ∧
    (closeChildProcess s).health = s.health ∧
    (closeChildProcess s).healthMsg = s.healthMsg ∧
    (closeChildProcess s).pendingRetries = s.pendingRetries ∧
    (closeChildProcess s).timerActive = s.timerActive ∧
    (closeChildProcess s).gattProcess = s.gattProcess ∧
    (closeChildProcess s).clock = s.clock := by
  unfold closeChildProcess
  split
  · split
    · exact ⟨rfl, rfl, rfl, rfl, rfl, rfl, rfl, rfl⟩
    · exact ⟨rfl, rfl, rfl, rfl, rfl, rfl, rfl, rfl⟩
  · exact ⟨rfl, rfl, rfl, rfl, rfl, rfl, rfl, rfl⟩

/-- `closeChildProcess` only touches the `sigints` counter of the process in
the slot: every process keeps its line counter and liveness flags. -/
theorem closeChildProcess_proc_flags (s : MState) (pid : Nat) (p : ProcState)
    (hp : s.procs[pid]? = some p) :
    ∃ q : ProcState, (closeChildProcess s).procs[pid]? = some q ∧
      q.exited = p.exited ∧ q.errored = p.errored ∧
      q.inputClosed = p.inputClosed ∧ q.lineCounter = p.lineCounter := by
  unfold closeChildProcess
  cases hs : s.gattProcess with
  | none => exact ⟨p, hp, rfl, rfl, rfl, rfl⟩
  | some j =>
    cases hj : s.procs[j]? with
    | none =>
      simp only [hj]
      exact ⟨p, hp, rfl, rfl, rfl, rfl⟩
    | some pj =>
      simp only [hj]
      by_cases hej : j = pid
      · subst hej
        have hpe : pj = p := by rw [hj] at hp; cases hp; rfl
        subst hpe
        have hlt : j < s.procs.length := (List.getElem?_eq_some.mp hj).1
        exact ⟨{ pj with sigints := pj.sigints + 1 },
          by simp [setProc, List.getElem?_set_eq_of_lt _ hlt], rfl, rfl, rfl, rfl⟩
      · exact ⟨p, by simp [setProc, List.getElem?_set_ne hej, hp], rfl, rfl, rfl, rfl⟩

theorem hexByte_inv {t : List Char} {v : Nat} (h : hexByte? t = some v) :
    ∃ a b x y, t = [a, b] ∧ hexDigit? a = some x ∧ hexDigit? b = some y ∧
      v = x * 16 + y := by
  match t with
  | [] => simp [hexByte?] at h
  | [a] => simp [hexByte?] at h
  | a :: b :: c :: rest => simp [hexByte?] at h
  | [a, b] =>
    cases hx : hexDigit? a with
    | none => simp [hexByte?, hx] at h
    | some x =>
      cases hy : hexDigit? b with
      | none => simp [hexByte?, hx, hy] at h
      | some y =>
        refine ⟨a, b, x, y, rfl, hx, hy, ?_⟩
        simp [hexByte?, hx, hy] at h
        omega

theorem hexTail_two_bytes {a b c d : Char} {x y z w : Nat}
    (ha : hexDigit? a = some x) (hb : hexDigit? b = some y)
    (hc : hexDigit? c = some z) (hd : hexDigit? d = some w) :
    hexTail? [a, b, c, d] = some (((x * 16 + y) * 16 + z) * 16 + w) := by
  simp [hexTail?, hexNatAux, ha, hb, hc, hd]

theorem hexTail_one_byte {a b : Char} {x y : Nat}
    (ha : hexDigit? a = some x) (hb : hexDigit? b = some y) :
    hexTail? [a, b] = some (x * 16 + y) := by
  simp [hexTail?, hexNatAux, ha, hb]

theorem closeChildProcess_published (s : MState) :
    (closeChildProcess s).published = s.published :=
  (closeChildProcess_fields s).1

theorem run_cons (s : MState) (e : Ev) (es : List Ev) :
    run s (e :: es) = run (step s e) es := rfl

/-- A data line (line counter already past the discarded header) of a live
process whose handle is in the slot: publish the parsed reading and send one
`SIGINT` to the subprocess; nothing else changes. -/
theorem data_line_step (s : MState) (pid : Nat) (p : ProcState)
    (line : List Char) (hp : s.procs[pid]? = some p) (hx : p.exited = false)
    (he : p.errored = false) (hin : p.inputClosed = false)
    (hn : p.lineCounter ≠ 0) (hslot : s.gattProcess = some pid) :
    step s (Ev.line pid line) =
      { s with clock := s.clock + 1,
               published := s.published ++
                 [{ temperature := lineTemp line, humidity := lineHumid line,
                    time := s.clock + 1 }],
               procs := s.procs.set pid { p with sigints := p.sigints + 1 } } := by
  simp [step, procLiveForLines, hp, hx, he, hin, lineHandler, hn,
    closeChildProcess, hslot, setProc]

/-! ## Witness fixtures: concrete lines and states -/

/-- A first output line that itself contains the `value:` marker. -/
def headerLine : List Char := "value: 8e 01 3c".data

/-- A typical gatttool notification line. -/
def dataLine : List Char := "Notification handle = 0x000e value: 8e 01 3c".data

/-- A malformed line: no `value:` marker, no hex payload. -/
def badLine : List Char := "Connection refused".data

/-- The session right after `start` once the header line of subprocess `0`
has been discarded. -/
def afterHeader : MState := step start (Ev.line 0 headerLine)

/-! ## Theorems -/

/-- **C3** — Every invocation of `update()` entered with
`retryCounter ≥ MAX_RETRY` sets health to `PROBLEM` with message
"unable to connect to device", resets the retry counter to `0`, and changes
nothing else: no subprocess is spawned, no observers attached, no retry timer
scheduled. -/
theorem c3_max_retry_aborts_cycle (s : MState)
    (h : MAX_RETRY ≤ s.retryCounter) :
    update s = { s with health := Health.PROBLEM,
                        healthMsg := "unable to connect to device",
                        retryCounter := 0 } := by
  have h0 : ¬s.retryCounter = 0 := by
    intro he
    rw [he] at h
    simp [MAX_RETRY] at h
  simp [update, h0, h, setState]

/-- Witness for **C3** at `retryCounter = 10`. -/
theorem c3_max_retry_aborts_cycle_witness :
    update { startState with retryCounter := 10 } =
      { { startState with retryCounter := 10 } with
          health := Health.PROBLEM,
          healthMsg := "unable to connect to device",
          retryCounter := 0 } :=
  c3_max_retry_aborts_cycle { startState with retryCounter := 10 } (by decide)

/-- **C6** — On the subprocess `error` event (spawn failure), the process
handle is cleared and health becomes `ERROR` "unable to launch gatttool
process"; the full state equality shows that the retry counter, the pending
retry timers and the recurring timer are untouched, so no retry is scheduled
from this branch. -/
theorem c6_spawn_failure (s : MState) (pid : Nat) (p : ProcState)
    (hp : s.procs[pid]? = some p) (hx : p.exited = false)
    (he : p.errored = false) :
    step s (Ev.errorEv pid) =
      { s with clock := s.clock + 1,
               procs := s.procs.set pid
                 { p with errored := true, inputClosed := true },
               gattProcess := none,
               health := Health.ERROR,
               healthMsg := "unable to launch gatttool process" } := by
  simp [step, hp, hx, he, errorHandler, setProc, setState]

/-- Witness for **C6**: spawn failure of the first subprocess after
`start`. -/
theorem c6_spawn_failure_witness :
    step start (Ev.errorEv 0) =
      { start with clock := start.clock + 1,
                   procs := start.procs.set 0
                     { newProc with errored := true, inputClosed := true },
                   gattProcess := none,
                   health := Health.ERROR,
                   healthMsg := "unable to launch gatttool process" } :=
  c6_spawn_failure start 0 newProc (by decide) rfl rfl

/-- **C2** — For every exit event of a live subprocess: exit code `0` or
`130` resets the retry counter to `0` and sets health `OK` (regardless of the
prior count, and the pending retries are untouched); any other exit code
(including `null` for a signal-killed child) increments the counter by
exactly one and appends a single retry with the fixed `RETRY_TIMEOUT = 5000`
ms delay, leaving the recurring timer untouched; in both branches the
`gattProcess` handle is cleared. -/
theorem c2_exit_branches (s : MState) (pid : Nat) (p : ProcState)
    (code : Option Int) (hp : s.procs[pid]? = some p)
    (hx : p.exited = false) (he : p.errored = false) :
    RETRY_TIMEOUT = 5000 ∧
    (step s (Ev.exitEv pid code)).gattProcess = none ∧
    ((code = some 0 ∨ code = some 130) →
      (step s (Ev.exitEv pid code)).retryCounter = 0 ∧
      (step s (Ev.exitEv pid code)).health = Health.OK ∧
      (step s (Ev.exitEv pid code)).pendingRetries = s.pendingRetries) ∧
    (¬(code = some 0 ∨ code = some 130) →
      (step s (Ev.exitEv pid code)).retryCounter = s.retryCounter + 1 ∧
      (step s (Ev.exitEv pid code)).pendingRetries =
        s.pendingRetries ++ [RETRY_TIMEOUT] ∧
      (step s (Ev.exitEv pid code)).health = s.health ∧
      (step s (Ev.exitEv pid code)).timerActive = s.timerActive) := by
  by_cases hc : code = some 0 ∨ code = some 130
  · simp [step, hp, hx, he, exitHandler, setProc, setState, hc, RETRY_TIMEOUT]
  · simp [step, hp, hx, he, exitHandler, setProc, setState, hc, RETRY_TIMEOUT]

/-- Witness for **C2**: abnormal exit (code `1`) of the first subprocess
after `start`, with prior retry count `0`. -/
theorem c2_exit_branches_witness :
    RETRY_TIMEOUT = 5000 ∧
    (step start (Ev.exitEv 0 (some 1))).gattProcess = none ∧
    ((some (1 : Int) = some 0 ∨ some (1 : Int) = some 130) →
      (step start (Ev.exitEv 0 (some 1))).retryCounter = 0 ∧
      (step start (Ev.exitEv 0 (some 1))).health = Health.OK ∧
      (step start (Ev.exitEv 0 (some 1))).pendingRetries =
        start.pendingRetries) ∧
    (¬(some (1 : Int) = some 0 ∨ some (1 : Int) = some 130) →
      (step start (Ev.exitEv 0 (some 1))).retryCounter =
        start.retryCounter + 1 ∧
      (step start (Ev.exitEv 0 (some 1))).pendingRetries =
        start.pendingRetries ++ [RETRY_TIMEOUT] ∧
      (step start (Ev.exitEv 0 (some 1))).health = start.health ∧
      (step start (Ev.exitEv 0 (some 1))).timerActive = start.timerActive) :=
  c2_exit_branches start 0 newProc (some 1) (by decide) rfl rfl

/-- **C1** — For every data line (any line after the discarded first line)
whose first three extracted tokens are valid hexadecimal bytes, the line
handler publishes exactly the object `{temperature, humidity, time}` with
`temperature = ((hi <<< 8) ||| lo) / 100` (`lo` = token 0, `hi` = token 1)
and `humidity` = the value of token 2. -/
theorem c1_data_line_publish (s : MState) (pid : Nat) (p : ProcState)
    (line : List Char) (hp : s.procs[pid]? = some p) (hx : p.exited = false)
    (he : p.errored = false) (hin : p.inputClosed = false)
    (hn : p.lineCounter ≠ 0) (lo hb hu : Nat)
    (h0 : hexByte? (getTok (tokensOf line) 0) = some lo)
    (h1 : hexByte? (getTok (tokensOf line) 1) = some hb)
    (h2 : hexByte? (getTok (tokensOf line) 2) = some hu) :
    (step s (Ev.line pid line)).published =
      s.published ++
        [{ temperature := some (((hb * 256 + lo : Nat) : Rat) / 100),
           humidity := some ((hu : Nat) : Rat),
           time := s.clock + 1 }] := by
  obtain ⟨a0, b0, x0, y0, ht0, hd0a, hd0b, hv0⟩ := hexByte_inv h0
  obtain ⟨a1, b1, x1, y1, ht1, hd1a, hd1b, hv1⟩ := hexByte_inv h1
  obtain ⟨a2, b2, x2, y2, ht2, hd2a, hd2b, hv2⟩ := hexByte_inv h2
  have htemp : lineTemp line = some (((hb * 256 + lo : Nat) : Rat) / 100) := by
    have happ : getTok (tokensOf line) 1 ++ getTok (tokensOf line) 0 =
        [a1, b1, a0, b0] := by rw [ht1, ht0]; rfl
    have hnat : ((x1 * 16 + y1) * 16 + x0) * 16 + y0 = hb * 256 + lo := by
      subst hv0; subst hv1; ring
    rw [lineTemp, happ, hexTail_two_bytes hd1a hd1b hd0a hd0b, hnat]
    rfl
  have hhum : lineHumid line = some ((hu : Nat) : Rat) := by
    rw [lineHumid, ht2, hexTail_one_byte hd2a hd2b, ← hv2]
    rfl
  simp [step, procLiveForLines, hp, hx, he, hin, lineHandler, hn,
    closeChildProcess_published, htemp, hhum]

/-- Witness for **C1**: after the header of subprocess `0` is discarded, the
line `"Notification handle = 0x000e value: 8e 01 3c"` publishes temperature
`(1 * 256 + 142) / 100` (= 3.98) and humidity `60`. -/
theorem c1_data_line_publish_witness :
    (step afterHeader (Ev.line 0 dataLine)).published =
      afterHeader.published ++
        [{ temperature := some (((1 * 256 + 142 : Nat) : Rat) / 100),
           humidity := some ((60 : Nat) : Rat),
           time := afterHeader.clock + 1 }] :=
  c1_data_line_publish afterHeader 0 { newProc with lineCounter := 1 }
    dataLine rfl rfl rfl rfl (by decide) 142 1 60 rfl rfl rfl

/-- **C5** — The first line of each cycle is discarded whatever its content
(here for an arbitrary line, including ones containing `value:`): the state
change is exactly the per-process line counter going from `0` to `1` — no
parse, no publish, no signal; and every newly spawned subprocess gets its own
fresh counter at `0`. -/
theorem c5_first_line_discarded (s : MState) (pid : Nat) (p : ProcState)
    (line : List Char) (hp : s.procs[pid]? = some p) (hx : p.exited = false)
    (he : p.errored = false) (hin : p.inputClosed = false)
    (hn : p.lineCounter = 0) :
    step s (Ev.line pid line) =
      { s with clock := s.clock + 1,
               procs := s.procs.set pid { p with lineCounter := 1 } } ∧
    ∀ t : MState, (spawnProc t).procs = t.procs ++ [newProc] ∧
      newProc.lineCounter = 0 := by
  constructor
  · simp [step, procLiveForLines, hp, hx, he, hin, lineHandler, hn, setProc]
  · exact fun t => ⟨rfl, rfl⟩

/-- Witness for **C5**: the very first line of subprocess `0`, itself
containing a `value:` marker, is discarded. -/
theorem c5_first_line_discarded_witness :
    step start (Ev.line 0 headerLine) =
      { start with clock := start.clock + 1,
                   procs := start.procs.set 0
                     { newProc with lineCounter := 1 } } ∧
    ∀ t : MState, (spawnProc t).procs = t.procs ++ [newProc] ∧
      newProc.lineCounter = 0 :=
  c5_first_line_discarded start 0 newProc headerLine rfl rfl rfl rfl rfl

/-- **C9** — No data line, however malformed, escalates a failure: the line
handler is total (JavaScript string indexing and numeric coercion return
`NaN`, never an exception), the retry machinery and health are untouched, and
the process is still live with its input open, awaiting further lines or the
exit event. -/
theorem c9_malformed_line_contained (s : MState) (pid : Nat) (p : ProcState)
    (line : List Char) (hp : s.procs[pid]? = some p) (hx : p.exited = false)
    (he : p.errored = false) (hin : p.inputClosed = false)
    (hn : p.lineCounter ≠ 0) :
    (step s (Ev.line pid line)).retryCounter = s.retryCounter ∧
    (step s (Ev.line pid line)).health = s.health ∧
    (step s (Ev.line pid line)).pendingRetries = s.pendingRetries ∧
    (step s (Ev.line pid line)).timerActive = s.timerActive ∧
    ∃ q : ProcState, (step s (Ev.line pid line)).procs[pid]? = some q ∧
      q.exited = false ∧ q.errored = false ∧ q.inputClosed = false := by
  have hred : step s (Ev.line pid line) =
      closeChildProcess
        { s with clock := s.clock + 1,
                 published := s.published ++
                   [{ temperature := lineTemp line, humidity := lineHumid line,
                      time := s.clock + 1 }] } := by
    simp [step, procLiveForLines, hp, hx, he, hin, lineHandler, hn]
  rw [hred]
  refine ⟨(closeChildProcess_fields _).2.1, (closeChildProcess_fields _).2.2.1,
    (closeChildProcess_fields _).2.2.2.2.1,
    (closeChildProcess_fields _).2.2.2.2.2.1, ?_⟩
  obtain ⟨q, hq, hqx, hqe, hqi, hql⟩ :=
    closeChildProcess_proc_flags
      { s with clock := s.clock + 1,
               published := s.published ++
                 [{ temperature := lineTemp line, humidity := lineHumid line,
                    time := s.clock + 1 }] } pid p hp
  exact ⟨q, hq, hqx.trans hx, hqe.trans he, hqi.trans hin⟩

/-- Witness for **C9**: the malformed line `"Connection refused"` after the
discarded header. -/
theorem c9_malformed_line_contained_witness :
    (step afterHeader (Ev.line 0 badLine)).retryCounter =
      afterHeader.retryCounter ∧
    (step afterHeader (Ev.line 0 badLine)).health = afterHeader.health ∧
    (step afterHeader (Ev.line 0 badLine)).pendingRetries =
      afterHeader.pendingRetries ∧
    (step afterHeader (Ev.line 0 badLine)).timerActive =
      afterHeader.timerActive ∧
    ∃ q : ProcState, (step afterHeader (Ev.line 0 badLine)).procs[0]? = some q ∧
      q.exited = false ∧ q.errored = false ∧ q.inputClosed = false :=
  c9_malformed_line_contained afterHeader 0 { newProc with lineCounter := 1 }
    badLine rfl rfl rfl rfl (by decide)

/-- **C10** — Publishes are not capped at one per cycle: `n` data lines
delivered (after the discarded header, before the exit event) produce exactly
`n` `record.set` calls and `n` `SIGINT` termination requests. -/
theorem c10_publishes_not_capped (s : MState) (pid : Nat) (p : ProcState)
    (lines : List (List Char)) (hp : s.procs[pid]? = some p)
    (hx : p.exited = false) (he : p.errored = false)
    (hin : p.inputClosed = false) (hn : p.lineCounter ≠ 0)
    (hslot : s.gattProcess = some pid) :
    (run s (lines.map (Ev.line pid))).published.length =
      s.published.length + lines.length ∧
    ∃ q : ProcState, (run s (lines.map (Ev.line pid))).procs[pid]? = some q ∧
      q.sigints = p.sigints + lines.length := by
  induction lines generalizing s p with
  | nil => exact ⟨by simp [run], p, hp, by simp⟩
  | cons l rest ih =>
    have hlt : pid < s.procs.length := (List.getElem?_eq_some.mp hp).1
    have hp2 : (s.procs.set pid { p with sigints := p.sigints + 1 })[pid]? =
        some { p with sigints := p.sigints + 1 } :=
      List.getElem?_set_eq_of_lt _ hlt
    obtain ⟨hlen, q, hq, hsig⟩ :=
      ih { s with clock := s.clock + 1,
                  published := s.published ++
                    [{ temperature := lineTemp l, humidity := lineHumid l,
                       time := s.clock + 1 }],
                  procs := s.procs.set pid { p with sigints := p.sigints + 1 } }
         { p with sigints := p.sigints + 1 } hp2 hx he hin hn hslot
    rw [List.map_cons, run_cons, data_line_step s pid p l hp hx he hin hn hslot]
    refine ⟨?_, q, hq, ?_⟩
    · rw [hlen]
      simp
      omega
    · rw [hsig]
      simp
      omega

/-- Witness for **C10**: two data lines (one well-formed, one malformed)
before exit give exactly two publishes and two termination requests. -/
theorem c10_publishes_not_capped_witness :
    (run afterHeader ([dataLine, badLine].map (Ev.line 0))).published.length =
      afterHeader.published.length + [dataLine, badLine].length ∧
    ∃ q : ProcState,
      (run afterHeader ([dataLine, badLine].map (Ev.line 0))).procs[0]? =
        some q ∧
      q.sigints = ({ newProc with lineCounter := 1 } : ProcState).sigints +
        [dataLine, badLine].length :=
  c10_publishes_not_capped afterHeader 0 { newProc with lineCounter := 1 }
    [dataLine, badLine] rfl rfl rfl rfl (by decide) rfl

/-- **C7 amended** — `update()` does not check the `activeProcess` slot:
whenever `retryCounter < MAX_RETRY` it spawns even while the slot is still
set from a previous cycle, overwriting the handle with the new process; the
previous subprocess is neither killed nor reaped by the spawn (its state is
untouched), so it can remain live alongside the new one. -/
theorem c7_amended_spawn_despite_slot (s : MState) (q : Nat)
    (hslot : s.gattProcess = some q) (hq : q < s.procs.length)
    (hr : s.retryCounter < MAX_RETRY) :
    (update s).gattProcess = some s.procs.length ∧
    (update s).procs.length = s.procs.length + 1 ∧
    (update s).procs[q]? = s.procs[q]? := by
  by_cases h0 : s.retryCounter = 0
  · refine ⟨?_, ?_, ?_⟩ <;>
      simp [update, h0, spawnProc, setState, List.getElem?_append, hq]
  · have hlt : ¬MAX_RETRY ≤ s.retryCounter := by omega
    refine ⟨?_, ?_, ?_⟩ <;>
      simp [update, h0, hlt, spawnProc, setState, List.getElem?_append, hq]

/-- Witness for **C7 amended**: the interval tick right after `start`, whose
subprocess `0` is still live and in the slot. -/
theorem c7_amended_spawn_despite_slot_witness :
    (update start).gattProcess = some start.procs.length ∧
    (update start).procs.length = start.procs.length + 1 ∧
    (update start).procs[0]? = start.procs[0]? :=
  c7_amended_spawn_despite_slot start 0 rfl (by decide) (by decide)

/-- **C4** — The claim says `stop()` resolves only after the active
subprocess's exit event has fired, with the process handle cleared.  The code
does not await `closeChildProcess()`: calling `stop` while the subprocess
spawned by `start` is still running completes with the recurring timer
cancelled, the record discarded and health `INACTIVE`, yet the subprocess is
still live and `gattProcess` is still set — the handle is cleared only when
the exit event fires later. -/
theorem c4_stop_does_not_wait :
    (stop start).gattProcess = some 0 ∧
    liveProcs (stop start) = 1 ∧
    (stop start).timerActive = false ∧
    (stop start).recordAttached = false ∧
    (stop start).health = Health.INACTIVE := by
  decide

/-- **C7 counterexample** — The claimed invariant "a new poll cycle never
spawns a subprocess while the `activeProcess` slot is still set" fails:
right after `start`, the slot holds process `0` which is still live, and an
interval tick nevertheless spawns a second subprocess, leaving two live
subprocesses at once. -/
theorem c7_counterexample :
    start.gattProcess = some 0 ∧
    liveProcs start = 1 ∧
    (step start Ev.tick).procs.length = 2 ∧
    liveProcs (step start Ev.tick) = 2 ∧
    (step start Ev.tick).gattProcess = some 1 := by
  decide

/-- **C8** — The retry timer scheduled by an abnormal exit is not cancelled
by `stop()`: after `start`, an exit with code `1`, and `stop()` (which ends
with the recurring timer cleared and health `INACTIVE`), the 5000 ms retry is
still pending, and when it fires, `update()` runs a full new poll cycle —
spawning a second subprocess and setting health `BUSY` after shutdown. -/
theorem c8_retry_survives_stop :
    (run start [Ev.exitEv 0 (some 1), Ev.stopCall]).health = Health.INACTIVE ∧
    (run start [Ev.exitEv 0 (some 1), Ev.stopCall]).timerActive = false ∧
    (run start [Ev.exitEv 0 (some 1), Ev.stopCall]).pendingRetries = [RETRY_TIMEOUT] ∧
    (run start [Ev.exitEv 0 (some 1), Ev.stopCall, Ev.retryFire]).procs.length = 2 ∧
    (run start [Ev.exitEv 0 (some 1), Ev.stopCall, Ev.retryFire]).health = Health.BUSY := by
  decide

end MijiaTemp
